import Mathlib

/-!
Formal model of the signal-scoring, risk-classification, position-sizing,
execution-validation and portfolio-ledger core of
`backend/advanced_trading_engine.py`.

Modelling conventions:
* Python floats are modelled as exact rationals (`ℚ`).
* The Python `dict` of open positions is modelled as an association list
  keyed by the token address.
* Code that can raise `ZeroDivisionError` (the Bollinger-band position when
  `bb_upper = bb_lower`, and the weighted-average entry-price recompute when
  the new total amount is zero, or when a signal's entry price is zero)
  returns `Option`, with `none` standing for the raised exception; the
  engine's `try/except` blocks turn such an exception into "no result".
* Decimal literals of the source (`0.4`, `0.15`, `0.001`, ...) are written
  as the equal exact fractions (`4/10`, `15/100`, `1/1000`, ...).
* Presentation-only fields (the free-text `reasoning` string and the
  `datetime` timestamps) carry no information any claim depends on and are
  omitted from the records.
* The field the engine calls `buy_sell_ratio` is rendered `buy_sell_rate`
  (same meaning: ratio of buys to sells in the snapshot).
-/

namespace AdvancedTradingEngine

/-- Per-token market snapshot (`TokenMetrics`), with exactly the fields the
engine reads.  The dataclass itself lives in the external data-provider
module; the fields and their meaning are those used by
`advanced_trading_engine.py`. -/
structure TokenMetrics where
  price_usd : ℚ
  price_change_24h : ℚ
  volume_24h : ℚ
  volume_change_24h : ℚ
  liquidity_usd : ℚ
  market_cap : ℚ
  holders : ℚ
  buy_sell_rate : ℚ
  price_impact_10k : ℚ
  ath_change : ℚ
  atl_change : ℚ
deriving DecidableEq, Repr

/-- Per-token technical indicators (`TechnicalIndicators`), with exactly the
fields the engine reads. -/
structure TechnicalIndicators where
  rsi : ℚ
  macd : ℚ
  macd_signal : ℚ
  macd_histogram : ℚ
  sma_20 : ℚ
  sma_50 : ℚ
  bb_upper : ℚ
  bb_lower : ℚ
  volatility : ℚ
  support_level : ℚ
  resistance_level : ℚ
deriving DecidableEq, Repr

/-- `TradeAction` enum. -/
inductive TradeAction where
  | BUY
  | SELL
  | HOLD
deriving DecidableEq, Repr

/-- `RiskLevel` enum. -/
inductive RiskLevel where
  | LOW
  | MEDIUM
  | HIGH
  | EXTREME
deriving DecidableEq, Repr

/-- `TradingSignal` dataclass (without the presentation-only `reasoning`
string and `timestamp`). -/
structure TradingSignal where
  token_address : String
  action : TradeAction
  confidence : ℚ
  risk_level : RiskLevel
  entry_price : ℚ
  target_price : ℚ
  stop_loss : ℚ
  position_size : ℚ
  technical_score : ℚ
  fundamental_score : ℚ
  sentiment_score : ℚ
deriving DecidableEq, Repr

/-- `PortfolioPosition` dataclass (without the two `datetime` fields). -/
structure PortfolioPosition where
  token_address : String
  symbol : String
  amount : ℚ
  entry_price : ℚ
  current_price : ℚ
  unrealized_pnl : ℚ
  unrealized_pnl_percent : ℚ
  stop_loss : ℚ
  take_profit : ℚ
deriving DecidableEq, Repr

/-- The engine's position map `self.positions : Dict[str, PortfolioPosition]`,
modelled as an association list keyed by token address. -/
abbrev Positions := List (String × PortfolioPosition)

/-- Dictionary lookup `self.positions[k]` / `k in self.positions`. -/
def getPosition (ps : Positions) (k : String) : Option PortfolioPosition :=
  (ps.find? (fun kv => decide (kv.1 = k))).map (fun kv => kv.2)

/-- Dictionary write `self.positions[k] = v` (replacing any previous entry). -/
def setPosition (ps : Positions) (k : String) (v : PortfolioPosition) : Positions :=
  (k, v) :: ps.filter (fun kv => decide (kv.1 ≠ k))

/-- Dictionary delete `del self.positions[k]`. -/
def delPosition (ps : Positions) (k : String) : Positions :=
  ps.filter (fun kv => decide (kv.1 ≠ k))

/-- The engine's `self.risk_limits` configuration dictionary. -/
structure RiskLimits where
  max_position_size : ℚ
  max_total_exposure : ℚ
  max_daily_loss : ℚ
  min_liquidity : ℚ
  max_price_impact : ℚ
  min_confidence : ℚ
deriving DecidableEq, Repr

/-- The values assigned in `AdvancedTradingEngine.__init__`. -/
def risk_limits : RiskLimits :=
  { max_position_size := 15/100
    max_total_exposure := 8/10
    max_daily_loss := 5/100
    min_liquidity := 50000
    max_price_impact := 2
    min_confidence := 70 }

/-- `_calculate_technical_score`.  Returns `none` exactly when the
Bollinger-band position `(price - bb_lower) / (bb_upper - bb_lower)` raises
`ZeroDivisionError`, i.e. when `bb_upper = bb_lower`. -/
def calculate_technical_score (td : TokenMetrics) (ind : TechnicalIndicators) :
    Option ℚ :=
  let score : ℚ := 50
  let score := if ind.rsi < 30 then score + 15
    else if ind.rsi > 70 then score - 15
    else if 40 ≤ ind.rsi ∧ ind.rsi ≤ 60 then score + 5
    else score
  let score := if ind.macd > ind.macd_signal ∧ ind.macd_histogram > 0 then score + 10
    else if ind.macd < ind.macd_signal ∧ ind.macd_histogram < 0 then score - 10
    else score
  let current_price := td.price_usd
  let score := if current_price > ind.sma_20 ∧ ind.sma_20 > ind.sma_50 then score + 15
    else if current_price < ind.sma_20 ∧ ind.sma_20 < ind.sma_50 then score - 15
    else score
  if ind.bb_upper = ind.bb_lower then none
  else
    let bb_position := (current_price - ind.bb_lower) / (ind.bb_upper - ind.bb_lower)
    let score := if bb_position < 1/5 then score + 8
      else if bb_position > 4/5 then score - 8
      else score
    let score := if td.volume_change_24h > 50 then score + 5
      else if td.volume_change_24h < -30 then score - 5
      else score
    some (max 0 (min 100 score))

/-- `_calculate_fundamental_score`. -/
def calculate_fundamental_score (td : TokenMetrics) : ℚ :=
  let score : ℚ := 50
  let score := if td.liquidity_usd > 1000000 then score + 15
    else if td.liquidity_usd > 500000 then score + 10
    else if td.liquidity_usd < 100000 then score - 20
    else score
  let score := if td.volume_24h > td.liquidity_usd * (5/10) then score + 10
    else if td.volume_24h < td.liquidity_usd * (1/10) then score - 10
    else score
  let score := if td.market_cap > 100000000 then score + 8
    else if td.market_cap > 10000000 then score + 5
    else if td.market_cap < 1000000 then score - 10
    else score
  let score := if td.price_impact_10k < 1 then score + 10
    else if td.price_impact_10k > 5 then score - 15
    else score
  let score := if td.holders > 10000 then score + 8
    else if td.holders > 1000 then score + 5
    else if td.holders < 100 then score - 10
    else score
  max 0 (min 100 score)

/-- `_calculate_sentiment_score`. -/
def calculate_sentiment_score (td : TokenMetrics) : ℚ :=
  let score : ℚ := 50
  let score := if td.price_change_24h > 10 then score + 15
    else if td.price_change_24h > 5 then score + 10
    else if td.price_change_24h < -10 then score - 15
    else if td.price_change_24h < -5 then score - 10
    else score
  let score := if td.buy_sell_rate > 15/10 then score + 10
    else if td.buy_sell_rate < 7/10 then score - 10
    else score
  let score := if td.ath_change > -20 then score + 5
    else if td.ath_change < -80 then score + 8
    else score
  let score := if td.atl_change > 500 then score + 10
    else score
  max 0 (min 100 score)

/-- `_determine_trading_action`. -/
def determine_trading_action (technical_score fundamental_score sentiment_score : ℚ) :
    TradeAction :=
  let overall_score :=
    technical_score * (4/10) + fundamental_score * (35/100) + sentiment_score * (25/100)
  if overall_score ≥ 70 then TradeAction.BUY
  else if overall_score ≤ 30 then TradeAction.SELL
  else TradeAction.HOLD

/-- `_assess_risk_level`. -/
def assess_risk_level (td : TokenMetrics) (ind : TechnicalIndicators) : RiskLevel :=
  let risk_factors : ℕ := 0
  let risk_factors := if td.liquidity_usd < 100000 then risk_factors + 2
    else if td.liquidity_usd < 500000 then risk_factors + 1
    else risk_factors
  let risk_factors := if ind.volatility > 20 then risk_factors + 2
    else if ind.volatility > 10 then risk_factors + 1
    else risk_factors
  let risk_factors := if td.price_impact_10k > 5 then risk_factors + 2
    else if td.price_impact_10k > 2 then risk_factors + 1
    else risk_factors
  let risk_factors := if td.market_cap < 1000000 then risk_factors + 2
    else if td.market_cap < 10000000 then risk_factors + 1
    else risk_factors
  if risk_factors ≥ 6 then RiskLevel.EXTREME
  else if risk_factors ≥ 4 then RiskLevel.HIGH
  else if risk_factors ≥ 2 then RiskLevel.MEDIUM
  else RiskLevel.LOW

/-- The `risk_multipliers` table in `_calculate_position_size`. -/
def risk_multiplier : RiskLevel → ℚ
  | RiskLevel.LOW => 1
  | RiskLevel.MEDIUM => 7/10
  | RiskLevel.HIGH => 4/10
  | RiskLevel.EXTREME => 2/10

/-- `_calculate_position_size`. -/
def calculate_position_size (confidence : ℚ) (risk_level : RiskLevel)
    (td : TokenMetrics) : ℚ :=
  let base_size := confidence / 100 * risk_limits.max_position_size
  let adjusted_size := base_size * risk_multiplier risk_level
  let adjusted_size := if td.liquidity_usd < 500000 then adjusted_size * (5/10)
    else adjusted_size
  min adjusted_size risk_limits.max_position_size

/-- The BUY-branch stop-loss multiplier table in `_calculate_price_targets`. -/
def buy_stop_multiplier : RiskLevel → ℚ
  | RiskLevel.LOW => 95/100
  | RiskLevel.MEDIUM => 97/100
  | RiskLevel.HIGH => 98/100
  | RiskLevel.EXTREME => 99/100

/-- The SELL-branch stop-loss multiplier table in `_calculate_price_targets`. -/
def sell_stop_multiplier : RiskLevel → ℚ
  | RiskLevel.LOW => 105/100
  | RiskLevel.MEDIUM => 103/100
  | RiskLevel.HIGH => 102/100
  | RiskLevel.EXTREME => 101/100

/-- `_calculate_price_targets` (target price, stop loss). -/
def calculate_price_targets (entry_price : ℚ) (action : TradeAction)
    (ind : TechnicalIndicators) (risk_level : RiskLevel) : ℚ × ℚ :=
  match action with
  | TradeAction.BUY =>
      (max (entry_price * (105/100)) ind.resistance_level,
       min (entry_price * buy_stop_multiplier risk_level) ind.support_level)
  | TradeAction.SELL =>
      (min (entry_price * (95/100)) ind.support_level,
       max (entry_price * sell_stop_multiplier risk_level) ind.resistance_level)
  | TradeAction.HOLD => (entry_price, entry_price)

/-- `_analyze_token_and_generate_signal`.  The indicator argument is the
result of the external `calculate_technical_indicators` call (`none` when
unavailable); `none` is also returned when the technical-score computation
raises (the surrounding `except` turns the error into "no signal"). -/
def analyze_token_and_generate_signal (token_address : String)
    (td : TokenMetrics) (indicators : Option TechnicalIndicators) :
    Option TradingSignal :=
  match indicators with
  | none => none
  | some ind =>
    match calculate_technical_score td ind with
    | none => none
    | some technical_score =>
      let fundamental_score := calculate_fundamental_score td
      let sentiment_score := calculate_sentiment_score td
      let confidence :=
        technical_score * (4/10) + fundamental_score * (35/100) + sentiment_score * (25/100)
      let action := determine_trading_action technical_score fundamental_score sentiment_score
      let risk_level := assess_risk_level td ind
      let position_size := calculate_position_size confidence risk_level td
      let entry_price := td.price_usd
      let targets := calculate_price_targets entry_price action ind risk_level
      some
        { token_address := token_address
          action := action
          confidence := confidence
          risk_level := risk_level
          entry_price := entry_price
          target_price := targets.1
          stop_loss := targets.2
          position_size := position_size
          technical_score := technical_score
          fundamental_score := fundamental_score
          sentiment_score := sentiment_score }

/-- `_update_position`.  `none` models a raised `ZeroDivisionError`
(`trade_amount / signal.entry_price` with a zero entry price, or
`total_value / total_amount` with a zero total amount); the exception leaves
the position map untouched. -/
def update_position (sig : TradingSignal) (trade_amount : ℚ) (action : String)
    (ps : Positions) : Option Positions :=
  if action = "BUY" then
    match getPosition ps sig.token_address with
    | some pos =>
      if sig.entry_price = 0 then none
      else
        let total_value := pos.amount * pos.entry_price + trade_amount
        let total_amount := pos.amount + trade_amount / sig.entry_price
        if total_amount = 0 then none
        else some (setPosition ps sig.token_address
          { pos with entry_price := total_value / total_amount, amount := total_amount })
    | none =>
      if sig.entry_price = 0 then none
      else some (setPosition ps sig.token_address
        { token_address := sig.token_address
          symbol := sig.token_address.take 8
          amount := trade_amount / sig.entry_price
          entry_price := sig.entry_price
          current_price := sig.entry_price
          unrealized_pnl := 0
          unrealized_pnl_percent := 0
          stop_loss := sig.stop_loss
          take_profit := sig.target_price })
  else if action = "SELL" then
    match getPosition ps sig.token_address with
    | some pos =>
      let amount := pos.amount * (1 - sig.position_size)
      some (if amount < 1/1000 then delPosition ps sig.token_address
        else setPosition ps sig.token_address { pos with amount := amount })
    | none => some ps
  else some ps

/-- The mutable engine state read by `_validate_trade_execution` and written
by `_update_position`. -/
structure EngineState where
  positions : Positions
  daily_pnl : ℚ
deriving DecidableEq, Repr

/-- `sum(pos.amount * pos.current_price for pos in self.positions.values())`. -/
def current_exposure (ps : Positions) : ℚ :=
  (ps.map (fun kv => kv.2.amount * kv.2.current_price)).sum

/-- `_validate_trade_execution`. -/
def validate_trade_execution (sig : TradingSignal) (portfolio_balance : ℚ)
    (st : EngineState) : Bool :=
  if sig.confidence < risk_limits.min_confidence then false
  else
    let trade_amount := portfolio_balance * sig.position_size
    if trade_amount < 10 then false
    else if st.daily_pnl < -(portfolio_balance * risk_limits.max_daily_loss) then false
    else if current_exposure st.positions + trade_amount >
        portfolio_balance * risk_limits.max_total_exposure then false
    else true

/-- `execute_trading_signal`.  The swap collaborator (`execute_jupiter_swap`,
reached through `_execute_buy_order` / `_execute_sell_order`) is external;
its outcome is the `swap_outcome` argument: `some tx` when it returns a
transaction identifier, `none` when it fails, times out or returns no
identifier.  The sell path first checks that a position exists (returning
`none` otherwise, before any swap).  A `ZeroDivisionError` escaping
`_update_position` is caught by the surrounding `except` and also yields
`none`; the mutation that would have followed never happens. -/
def execute_trading_signal (sig : TradingSignal) (portfolio_balance : ℚ)
    (st : EngineState) (swap_outcome : Option String) :
    Option String × EngineState :=
  if validate_trade_execution sig portfolio_balance st = false then (none, st)
  else
    let trade_amount_usd := portfolio_balance * sig.position_size
    match sig.action with
    | TradeAction.BUY =>
      match swap_outcome with
      | some tx =>
        match update_position sig trade_amount_usd "BUY" st.positions with
        | some ps2 => (some tx, { st with positions := ps2 })
        | none => (none, st)
      | none => (none, st)
    | TradeAction.SELL =>
      if getPosition st.positions sig.token_address = none then (none, st)
      else
        match swap_outcome with
        | some tx =>
          match update_position sig trade_amount_usd "SELL" st.positions with
          | some ps2 => (some tx, { st with positions := ps2 })
          | none => (none, st)
        | none => (none, st)
    | TradeAction.HOLD => (none, st)


/-! ## Spec-side definitions

These definitions follow the wording of the specification; the theorems
below compare them with the source-derived definitions above. -/

/-- The action rule as the spec words it: BUY when the blend is at least 70
(boundary inclusive), SELL when it is at most 30 (boundary inclusive), HOLD
otherwise. -/
def action_of_blend (blend : ℚ) : TradeAction :=
  if blend ≥ 70 then TradeAction.BUY
  else if blend ≤ 30 then TradeAction.SELL
  else TradeAction.HOLD

/-- The five additive technical-score rule contributions of the spec. -/
def technical_contributions (td : TokenMetrics) (ind : TechnicalIndicators) : ℚ :=
  (if ind.rsi < 30 then 15
    else if ind.rsi > 70 then -15
    else if 40 ≤ ind.rsi ∧ ind.rsi ≤ 60 then 5
    else 0)
  + (if ind.macd > ind.macd_signal ∧ ind.macd_histogram > 0 then 10
    else if ind.macd < ind.macd_signal ∧ ind.macd_histogram < 0 then -10
    else 0)
  + (if td.price_usd > ind.sma_20 ∧ ind.sma_20 > ind.sma_50 then 15
    else if td.price_usd < ind.sma_20 ∧ ind.sma_20 < ind.sma_50 then -15
    else 0)
  + (if (td.price_usd - ind.bb_lower) / (ind.bb_upper - ind.bb_lower) < 1/5 then 8
    else if (td.price_usd - ind.bb_lower) / (ind.bb_upper - ind.bb_lower) > 4/5 then -8
    else 0)
  + (if td.volume_change_24h > 50 then 5
    else if td.volume_change_24h < -30 then -5
    else 0)

/-- The five additive fundamental-score rule contributions of the spec. -/
def fundamental_contributions (td : TokenMetrics) : ℚ :=
  (if td.liquidity_usd > 1000000 then 15
    else if td.liquidity_usd > 500000 then 10
    else if td.liquidity_usd < 100000 then -20
    else 0)
  + (if td.volume_24h > td.liquidity_usd * (5/10) then 10
    else if td.volume_24h < td.liquidity_usd * (1/10) then -10
    else 0)
  + (if td.market_cap > 100000000 then 8
    else if td.market_cap > 10000000 then 5
    else if td.market_cap < 1000000 then -10
    else 0)
  + (if td.price_impact_10k < 1 then 10
    else if td.price_impact_10k > 5 then -15
    else 0)
  + (if td.holders > 10000 then 8
    else if td.holders > 1000 then 5
    else if td.holders < 100 then -10
    else 0)

/-- The four additive sentiment-score rule contributions of the spec. -/
def sentiment_contributions (td : TokenMetrics) : ℚ :=
  (if td.price_change_24h > 10 then 15
    else if td.price_change_24h > 5 then 10
    else if td.price_change_24h < -10 then -15
    else if td.price_change_24h < -5 then -10
    else 0)
  + (if td.buy_sell_rate > 15/10 then 10
    else if td.buy_sell_rate < 7/10 then -10
    else 0)
  + (if td.ath_change > -20 then 5
    else if td.ath_change < -80 then 8
    else 0)
  + (if td.atl_change > 500 then 10
    else 0)

/-- The four risk-factor check contributions of the spec, each 0, 1 or 2. -/
def risk_factor_count (td : TokenMetrics) (ind : TechnicalIndicators) : ℕ :=
  (if td.liquidity_usd < 100000 then 2
    else if td.liquidity_usd < 500000 then 1
    else 0)
  + (if ind.volatility > 20 then 2
    else if ind.volatility > 10 then 1
    else 0)
  + (if td.price_impact_10k > 5 then 2
    else if td.price_impact_10k > 2 then 1
    else 0)
  + (if td.market_cap < 1000000 then 2
    else if td.market_cap < 10000000 then 1
    else 0)

/-! ## Helper lemmas -/

/-- Clamping to `[0, 100]` lands in `[0, 100]`. -/
lemma clamp_mem (x : ℚ) : 0 ≤ max 0 (min 100 x) ∧ max 0 (min 100 x) ≤ 100 :=
  ⟨le_max_left 0 _, max_le (by norm_num) (min_le_left 100 x)⟩

/-- Looking up the key just written returns the written value. -/
lemma getPosition_setPosition (ps : Positions) (k : String) (v : PortfolioPosition) :
    getPosition (setPosition ps k v) k = some v := by
  simp [getPosition, setPosition]

/-- Looking up a deleted key returns nothing. -/
lemma getPosition_delPosition (ps : Positions) (k : String) :
    getPosition (delPosition ps k) k = none := by
  simp only [getPosition, delPosition, Option.map_eq_none', List.find?_eq_none,
    List.mem_filter, decide_eq_true_eq, and_imp]
  intro kv _ hkv
  simpa using hkv


/-! ## Claim theorems -/

/-- One accumulation step `rf += 2 / rf += 1 / rf` commutes into a sum. -/
lemma accumulate_step (n : ℕ) (c c' : Prop) [Decidable c] [Decidable c'] :
    (if c then n + 2 else if c' then n + 1 else n) =
      n + (if c then 2 else if c' then 1 else 0) := by
  split_ifs <;> norm_num

/-- Claim C5: the execution validator is a total function of the signal, the
balance and the engine state, and it rejects exactly when at least one of the
four conditions holds: confidence below the minimum, trade notional below ten
dollars, daily loss beyond the daily-loss limit, or exposure plus notional
beyond the total-exposure limit. -/
theorem validate_trade_execution_reject_iff (sig : TradingSignal)
    (portfolio_balance : ℚ) (st : EngineState) :
    validate_trade_execution sig portfolio_balance st = false ↔
      (sig.confidence < risk_limits.min_confidence
        ∨ portfolio_balance * sig.position_size < 10
        ∨ st.daily_pnl < -(portfolio_balance * risk_limits.max_daily_loss)
        ∨ current_exposure st.positions + portfolio_balance * sig.position_size >
            portfolio_balance * risk_limits.max_total_exposure) := by
  simp only [validate_trade_execution]
  split_ifs <;> simp [*]

/-- Claim C6: the computed position size is the capped formula
(confidence/100 · limit · tier multiplier, halved under 500k liquidity,
capped at the limit), and it never exceeds the configured limit. -/
theorem calculate_position_size_formula (confidence : ℚ) (risk_level : RiskLevel)
    (td : TokenMetrics) :
    calculate_position_size confidence risk_level td =
      min (confidence / 100 * risk_limits.max_position_size * risk_multiplier risk_level *
        (if td.liquidity_usd < 500000 then 1/2 else 1)) risk_limits.max_position_size
    ∧ calculate_position_size confidence risk_level td ≤ risk_limits.max_position_size := by
  constructor
  · simp only [calculate_position_size]
    split_ifs with h <;> congr 1 <;> ring
  · simp only [calculate_position_size]
    exact min_le_right _ _

set_option maxRecDepth 8192 in
/-- Claim C7: the risk classifier counts exactly the four 0/1/2 risk-factor
contributions and maps the total through the 6/4/2 thresholds. -/
theorem assess_risk_level_eq_count (td : TokenMetrics) (ind : TechnicalIndicators) :
    assess_risk_level td ind =
      (if risk_factor_count td ind ≥ 6 then RiskLevel.EXTREME
        else if risk_factor_count td ind ≥ 4 then RiskLevel.HIGH
        else if risk_factor_count td ind ≥ 2 then RiskLevel.MEDIUM
        else RiskLevel.LOW) := by
  rcases em (td.liquidity_usd < 100000) with h1 | h1 <;>
    rcases em (td.liquidity_usd < 500000) with h2 | h2 <;>
    rcases em (ind.volatility > 20) with h3 | h3 <;>
    rcases em (ind.volatility > 10) with h4 | h4 <;>
    rcases em (td.price_impact_10k > 5) with h5 | h5 <;>
    rcases em (td.price_impact_10k > 2) with h6 | h6 <;>
    rcases em (td.market_cap < 1000000) with h7 | h7 <;>
    rcases em (td.market_cap < 10000000) with h8 | h8 <;>
    simp [assess_risk_level, risk_factor_count, h1, h2, h3, h4, h5, h6, h7, h8]

/-- Claim C10: the technical score fails (the unguarded Bollinger division
raises) exactly when the Bollinger bands coincide, in which case the token
yields no signal; whenever they differ the division is defined and a score,
hence a signal, is produced. -/
theorem technical_score_division_guard (token_address : String)
    (td : TokenMetrics) (ind : TechnicalIndicators) :
    (calculate_technical_score td ind = none ↔ ind.bb_upper = ind.bb_lower)
    ∧ (analyze_token_and_generate_signal token_address td (some ind) = none ↔
        ind.bb_upper = ind.bb_lower) := by
  by_cases h : ind.bb_upper = ind.bb_lower
  · have h1 : calculate_technical_score td ind = none := by
      simp [calculate_technical_score, h]
    refine ⟨⟨fun _ => h, fun _ => h1⟩, ⟨fun _ => h, fun _ => ?_⟩⟩
    simp [analyze_token_and_generate_signal, h1]
  · have h1 : (calculate_technical_score td ind).isSome = true := by
      simp [calculate_technical_score, h]
    obtain ⟨s, hs⟩ := Option.isSome_iff_exists.mp h1
    constructor
    · simp [hs, h]
    · simp [analyze_token_and_generate_signal, hs, h]



/-- A two-branch adjustment step commutes into a sum. -/
lemma score_step1 (s a : ℚ) (p : Prop) [Decidable p] :
    (if p then s + a else s) = s + (if p then a else 0) := by
  split_ifs <;> ring

/-- An `if` whose branches both add to the same base commutes into a sum. -/
lemma score_if_add (s a b : ℚ) (p : Prop) [Decidable p] :
    (if p then s + a else s + b) = s + (if p then a else b) := by
  split_ifs <;> ring

/-- Claim C2: each sub-score is the neutral baseline 50 plus the additive
rule contributions, clamped to `[0, 100]`; the clamped value lies in
`[0, 100]` however extreme the inputs (for the technical score this is the
value produced whenever the Bollinger division is defined). -/
theorem sub_scores_baseline_and_clamped (td : TokenMetrics) (ind : TechnicalIndicators) :
    calculate_technical_score td ind =
      (if ind.bb_upper = ind.bb_lower then none
        else some (max 0 (min 100 (50 + technical_contributions td ind))))
    ∧ 0 ≤ max 0 (min 100 (50 + technical_contributions td ind))
    ∧ max 0 (min 100 (50 + technical_contributions td ind)) ≤ 100
    ∧ calculate_fundamental_score td = max 0 (min 100 (50 + fundamental_contributions td))
    ∧ 0 ≤ calculate_fundamental_score td
    ∧ calculate_fundamental_score td ≤ 100
    ∧ calculate_sentiment_score td = max 0 (min 100 (50 + sentiment_contributions td))
    ∧ 0 ≤ calculate_sentiment_score td
    ∧ calculate_sentiment_score td ≤ 100 := by
  have ht : calculate_technical_score td ind =
      (if ind.bb_upper = ind.bb_lower then none
        else some (max 0 (min 100 (50 + technical_contributions td ind)))) := by
    simp only [calculate_technical_score, technical_contributions, sub_eq_add_neg,
      score_step1, score_if_add]
    by_cases h : ind.bb_upper = ind.bb_lower
    · simp only [if_pos h]
    · simp only [if_neg h]
      congr 2
      ring_nf
  have hf : calculate_fundamental_score td =
      max 0 (min 100 (50 + fundamental_contributions td)) := by
    simp only [calculate_fundamental_score, fundamental_contributions, sub_eq_add_neg,
      score_step1, score_if_add]
    congr 2
    ring
  have hs : calculate_sentiment_score td =
      max 0 (min 100 (50 + sentiment_contributions td)) := by
    simp only [calculate_sentiment_score, sentiment_contributions, sub_eq_add_neg,
      score_step1, score_if_add]
    congr 2
    ring
  refine ⟨ht, (clamp_mem _).1, (clamp_mem _).2, hf, ?_, ?_, hs, ?_, ?_⟩
  · rw [hf]; exact (clamp_mem _).1
  · rw [hf]; exact (clamp_mem _).2
  · rw [hs]; exact (clamp_mem _).1
  · rw [hs]; exact (clamp_mem _).2

/-- Claim C1: every produced signal's blended confidence is the fixed affine
combination 0.4/0.35/0.25 of its three sub-scores, and its action is the
pure function of the blend with inclusive boundaries (70 gives BUY, 30 gives
SELL, 50 gives HOLD). -/
theorem signal_confidence_blend_and_action (token_address : String)
    (td : TokenMetrics) (ind : TechnicalIndicators) (sig : TradingSignal)
    (h : analyze_token_and_generate_signal token_address td (some ind) = some sig) :
    sig.confidence = (4/10) * sig.technical_score + (35/100) * sig.fundamental_score
        + (25/100) * sig.sentiment_score
    ∧ sig.action = action_of_blend sig.confidence
    ∧ action_of_blend 70 = TradeAction.BUY
    ∧ action_of_blend 30 = TradeAction.SELL
    ∧ action_of_blend 50 = TradeAction.HOLD := by
  cases hts : calculate_technical_score td ind with
  | none => rw [analyze_token_and_generate_signal, hts] at h; cases h
  | some t =>
    rw [analyze_token_and_generate_signal, hts] at h
    injection h with h
    subst h
    refine ⟨by simp only; ring, ?_, by norm_num [action_of_blend],
      by norm_num [action_of_blend], by norm_num [action_of_blend]⟩
    simp only [determine_trading_action, action_of_blend]



/-- Claim C3: a BUY update on an existing position recomputes the
weighted-average entry price as (a·e + t)/(a + t/p) and the amount as
a + t/p, and the updated ledger holds exactly that position for the token. -/
theorem buy_update_weighted_average (ps : Positions) (sig : TradingSignal) (t : ℚ)
    (pos : PortfolioPosition)
    (hpos : getPosition ps sig.token_address = some pos)
    (ha : 0 < pos.amount) (he : 0 < pos.entry_price) (ht : 0 < t)
    (hp : 0 < sig.entry_price) :
    update_position sig t "BUY" ps =
      some (setPosition ps sig.token_address
        { pos with
          entry_price := (pos.amount * pos.entry_price + t) / (pos.amount + t / sig.entry_price)
          amount := pos.amount + t / sig.entry_price })
    ∧ getPosition (setPosition ps sig.token_address
        { pos with
          entry_price := (pos.amount * pos.entry_price + t) / (pos.amount + t / sig.entry_price)
          amount := pos.amount + t / sig.entry_price }) sig.token_address =
      some { pos with
          entry_price := (pos.amount * pos.entry_price + t) / (pos.amount + t / sig.entry_price)
          amount := pos.amount + t / sig.entry_price } := by
  have hd : pos.amount + t / sig.entry_price ≠ 0 := (add_pos ha (div_pos ht hp)).ne'
  exact ⟨by simp [update_position, hpos, hp.ne', hd], getPosition_setPosition _ _ _⟩

/-- Claim C4: a SELL update on an existing position scales its amount by
(1 − position_size) and removes it exactly when the result drops below the
dust threshold 1/1000; selling the whole position (position_size = 1)
removes it, and the removed token no longer resolves in the ledger. -/
theorem sell_update_proportional (ps : Positions) (sig : TradingSignal) (t : ℚ)
    (pos : PortfolioPosition)
    (hpos : getPosition ps sig.token_address = some pos)
    (h0 : 0 ≤ sig.position_size) (h1 : sig.position_size ≤ 1) :
    update_position sig t "SELL" ps =
      some (if pos.amount * (1 - sig.position_size) < 1/1000
        then delPosition ps sig.token_address
        else setPosition ps sig.token_address
          { pos with amount := pos.amount * (1 - sig.position_size) })
    ∧ (sig.position_size = 1 →
        update_position sig t "SELL" ps = some (delPosition ps sig.token_address))
    ∧ getPosition (delPosition ps sig.token_address) sig.token_address = none := by
  have hmain : update_position sig t "SELL" ps =
      some (if pos.amount * (1 - sig.position_size) < 1/1000
        then delPosition ps sig.token_address
        else setPosition ps sig.token_address
          { pos with amount := pos.amount * (1 - sig.position_size) }) := by
    simp [update_position, hpos]
  refine ⟨hmain, ?_, getPosition_delPosition _ _⟩
  intro hs
  rw [hmain, hs]
  norm_num



/-- The ledger invariant of the spec: every held position has a nonnegative
amount and a positive entry price. -/
def positions_invariant (ps : Positions) : Prop :=
  ∀ kv ∈ ps, 0 ≤ kv.2.amount ∧ 0 < kv.2.entry_price

/-- A ledger operation: the two mutation paths of `_update_position`
(`action = "BUY"` with a trade amount, or `action = "SELL"`). -/
inductive LedgerOp where
  | buy : TradingSignal → ℚ → LedgerOp
  | sell : TradingSignal → ℚ → LedgerOp

/-- Run one ledger operation through `_update_position`. -/
def run_ledger_op (ps : Positions) : LedgerOp → Option Positions
  | LedgerOp.buy sig t => update_position sig t "BUY" ps
  | LedgerOp.sell sig t => update_position sig t "SELL" ps

/-- Run a sequence of ledger operations; a raised error aborts the run. -/
def run_ledger_ops (ps : Positions) : List LedgerOp → Option Positions
  | [] => some ps
  | op :: ops =>
    match run_ledger_op ps op with
    | some ps2 => run_ledger_ops ps2 ops
    | none => none

/-- The claim's well-formedness of one operation: buys carry a nonnegative
trade amount and a positive signal entry price; sells carry a position size
in `[0, 1]`. -/
def op_well_formed : LedgerOp → Prop
  | LedgerOp.buy sig t => 0 ≤ t ∧ 0 < sig.entry_price
  | LedgerOp.sell sig _ => 0 ≤ sig.position_size ∧ sig.position_size ≤ 1

/-- Well-formedness of a whole sequence of operations. -/
def ops_well_formed (ops : List LedgerOp) : Prop :=
  ∀ op ∈ ops, op_well_formed op

lemma positions_invariant_set {ps : Positions} {k : String} {v : PortfolioPosition}
    (hinv : positions_invariant ps) (hv : 0 ≤ v.amount ∧ 0 < v.entry_price) :
    positions_invariant (setPosition ps k v) := by
  intro kv hkv
  rcases List.mem_cons.mp hkv with h | h
  · rw [h]; exact hv
  · exact hinv kv (List.mem_of_mem_filter h)

lemma positions_invariant_del {ps : Positions} {k : String}
    (hinv : positions_invariant ps) : positions_invariant (delPosition ps k) :=
  fun kv hkv => hinv kv (List.mem_of_mem_filter hkv)

lemma getPosition_invariant {ps : Positions} {k : String} {pos : PortfolioPosition}
    (hinv : positions_invariant ps) (h : getPosition ps k = some pos) :
    0 ≤ pos.amount ∧ 0 < pos.entry_price := by
  rcases Option.map_eq_some'.mp h with ⟨kv, hfind, hkv⟩
  have := hinv kv (List.mem_of_find?_eq_some hfind)
  rw [hkv] at this
  exact this

lemma update_position_buy_invariant {sig : TradingSignal} {t : ℚ} {ps ps2 : Positions}
    (hinv : positions_invariant ps) (ht : 0 ≤ t) (hp : 0 < sig.entry_price)
    (h : update_position sig t "BUY" ps = some ps2) : positions_invariant ps2 := by
  rw [update_position, if_pos rfl] at h
  cases hget : getPosition ps sig.token_address with
  | some pos =>
    obtain ⟨ha, he⟩ := getPosition_invariant hinv hget
    simp only [hget] at h
    rw [if_neg hp.ne'] at h
    by_cases hd : pos.amount + t / sig.entry_price = 0
    · rw [if_pos hd] at h; cases h
    · rw [if_neg hd] at h
      injection h with h
      subst h
      have hdiv : 0 ≤ t / sig.entry_price := div_nonneg ht hp.le
      have hdpos : 0 < pos.amount + t / sig.entry_price :=
        lt_of_le_of_ne (add_nonneg ha hdiv) (Ne.symm hd)
      have hnum : 0 < pos.amount * pos.entry_price + t := by
        by_cases hA : pos.amount = 0
        · rw [hA] at hdpos
          rw [zero_add] at hdpos
          rcases div_pos_iff.mp hdpos with ⟨h1, _⟩ | ⟨_, h2⟩
          · rw [hA]; linarith
          · linarith
        · have hA' : 0 < pos.amount := lt_of_le_of_ne ha (Ne.symm hA)
          have := mul_pos hA' he
          linarith
      exact positions_invariant_set hinv ⟨add_nonneg ha hdiv, div_pos hnum hdpos⟩
  | none =>
    simp only [hget] at h
    rw [if_neg hp.ne'] at h
    injection h with h
    subst h
    exact positions_invariant_set hinv ⟨div_nonneg ht hp.le, hp⟩

lemma update_position_sell_invariant {sig : TradingSignal} {t : ℚ} {ps ps2 : Positions}
    (hinv : positions_invariant ps) (h0 : 0 ≤ sig.position_size)
    (h1 : sig.position_size ≤ 1)
    (h : update_position sig t "SELL" ps = some ps2) : positions_invariant ps2 := by
  rw [update_position, if_neg (by decide), if_pos rfl] at h
  cases hget : getPosition ps sig.token_address with
  | some pos =>
    obtain ⟨ha, he⟩ := getPosition_invariant hinv hget
    simp only [hget] at h
    injection h with h
    subst h
    split_ifs
    · exact positions_invariant_del hinv
    · exact positions_invariant_set hinv ⟨mul_nonneg ha (by linarith), he⟩
  | none =>
    simp only [hget] at h
    injection h with h
    subst h
    exact hinv

/-- Claim C8: any successful sequence of well-formed BUY/SELL ledger updates
applied to a ledger satisfying the position invariant (amount nonnegative,
entry price positive) yields a ledger still satisfying it. -/
theorem ledger_updates_preserve_invariant (ops : List LedgerOp) (ps ps2 : Positions)
    (hinv : positions_invariant ps) (hwf : ops_well_formed ops)
    (h : run_ledger_ops ps ops = some ps2) : positions_invariant ps2 := by
  induction ops generalizing ps with
  | nil =>
    rw [run_ledger_ops] at h
    injection h with h
    subst h
    exact hinv
  | cons op ops ih =>
    rw [run_ledger_ops] at h
    cases hstep : run_ledger_op ps op with
    | none => rw [hstep] at h; cases h
    | some psm =>
      rw [hstep] at h
      have hwfop := hwf op (List.mem_cons_self op ops)
      have hinvm : positions_invariant psm := by
        cases op with
        | buy sig tr =>
          rw [run_ledger_op] at hstep
          exact update_position_buy_invariant hinv hwfop.1 hwfop.2 hstep
        | sell sig tr =>
          rw [run_ledger_op] at hstep
          exact update_position_sell_invariant hinv hwfop.1 hwfop.2 hstep
      exact ih psm hinvm (fun o ho => hwf o (List.mem_cons_of_mem _ ho)) h



/-- Claim C9: when the swap collaborator produces no transaction identifier,
the caller gets `none` and the engine state is unchanged; the state can only
change when the collaborator did return an identifier. -/
theorem failed_execution_leaves_state (sig : TradingSignal) (portfolio_balance : ℚ)
    (st : EngineState) (swap_outcome : Option String) :
    execute_trading_signal sig portfolio_balance st none = (none, st)
    ∧ ((execute_trading_signal sig portfolio_balance st swap_outcome).2 ≠ st →
        swap_outcome.isSome = true) := by
  have h1 : execute_trading_signal sig portfolio_balance st none = (none, st) := by
    rw [execute_trading_signal]
    split_ifs <;> cases sig.action <;> rfl
  refine ⟨h1, fun hne => ?_⟩
  cases swap_outcome with
  | some tx => rfl
  | none => exact absurd (by rw [h1]) hne



/-! ## Concrete fixtures used by the witness theorems -/

/-- A concrete market snapshot. -/
def fixture_td : TokenMetrics :=
  { price_usd := 1, price_change_24h := 0, volume_24h := 0, volume_change_24h := 0,
    liquidity_usd := 2000000, market_cap := 200000000, holders := 20000,
    buy_sell_rate := 1, price_impact_10k := 1/2, ath_change := 0, atl_change := 0 }

/-- Concrete technical indicators with distinct Bollinger bands. -/
def fixture_ind : TechnicalIndicators :=
  { rsi := 50, macd := 0, macd_signal := 0, macd_histogram := 0, sma_20 := 2, sma_50 := 3,
    bb_upper := 2, bb_lower := 0, volatility := 0, support_level := 1, resistance_level := 1 }

/-- The signal the engine produces on `fixture_td` / `fixture_ind`. -/
def fixture_signal : TradingSignal :=
  { token_address := "TOKEN", action := TradeAction.HOLD, confidence := 581/10,
    risk_level := RiskLevel.LOW, entry_price := 1, target_price := 1, stop_loss := 1,
    position_size := 1743/20000, technical_score := 40, fundamental_score := 81,
    sentiment_score := 55 }

/-- A concrete held position: 10 units at entry price 1. -/
def fixture_position : PortfolioPosition :=
  { token_address := "TOKEN", symbol := "TOKEN", amount := 10, entry_price := 1,
    current_price := 1, unrealized_pnl := 0, unrealized_pnl_percent := 0,
    stop_loss := 0, take_profit := 0 }

/-- A concrete one-position ledger. -/
def fixture_ledger : Positions := [("TOKEN", fixture_position)]

/-- A concrete BUY signal at entry price 2. -/
def fixture_buy_signal : TradingSignal :=
  { token_address := "TOKEN", action := TradeAction.BUY, confidence := 80,
    risk_level := RiskLevel.LOW, entry_price := 2, target_price := 3, stop_loss := 1,
    position_size := 1/10, technical_score := 80, fundamental_score := 80,
    sentiment_score := 80 }

/-- A concrete SELL signal selling the whole position. -/
def fixture_sell_signal : TradingSignal :=
  { token_address := "TOKEN", action := TradeAction.SELL, confidence := 80,
    risk_level := RiskLevel.LOW, entry_price := 2, target_price := 1, stop_loss := 3,
    position_size := 1, technical_score := 20, fundamental_score := 20,
    sentiment_score := 20 }

/-- A concrete engine state with no open positions. -/
def fixture_state : EngineState := { positions := [], daily_pnl := 0 }

/-- The two-step buy-then-sell operation sequence of the ledger claims. -/
def fixture_ops : List LedgerOp :=
  [LedgerOp.buy fixture_buy_signal 20, LedgerOp.sell fixture_sell_signal 0]

/-! ## Witnesses -/

/-- Witness for C1 at the concrete fixture analysis. -/
theorem signal_confidence_blend_and_action_witness :
    analyze_token_and_generate_signal "TOKEN" fixture_td (some fixture_ind) =
        some fixture_signal
    ∧ (fixture_signal.confidence = (4/10) * fixture_signal.technical_score
          + (35/100) * fixture_signal.fundamental_score
          + (25/100) * fixture_signal.sentiment_score
        ∧ fixture_signal.action = action_of_blend fixture_signal.confidence
        ∧ action_of_blend 70 = TradeAction.BUY
        ∧ action_of_blend 30 = TradeAction.SELL
        ∧ action_of_blend 50 = TradeAction.HOLD) := by
  have h : analyze_token_and_generate_signal "TOKEN" fixture_td (some fixture_ind) =
      some fixture_signal := by
    norm_num [analyze_token_and_generate_signal, calculate_technical_score,
      calculate_fundamental_score, calculate_sentiment_score, determine_trading_action,
      assess_risk_level, calculate_position_size, calculate_price_targets,
      risk_multiplier, risk_limits, fixture_td, fixture_ind, fixture_signal,
      min_def, max_def]
  exact ⟨h, signal_confidence_blend_and_action "TOKEN" fixture_td fixture_ind
    fixture_signal h⟩

/-- Witness for C3: buying 10 units at entry 1 and then 10 more units (a 20
dollar trade at entry price 2) yields weighted-average entry 3/2 and amount
20. -/
theorem buy_update_weighted_average_witness :
    getPosition fixture_ledger fixture_buy_signal.token_address = some fixture_position
    ∧ update_position fixture_buy_signal 20 "BUY" fixture_ledger =
        some (setPosition fixture_ledger fixture_buy_signal.token_address
          { fixture_position with
            entry_price :=
              (fixture_position.amount * fixture_position.entry_price + 20) /
                (fixture_position.amount + 20 / fixture_buy_signal.entry_price)
            amount := fixture_position.amount + 20 / fixture_buy_signal.entry_price })
    ∧ fixture_position.amount + 20 / fixture_buy_signal.entry_price = 20
    ∧ (fixture_position.amount * fixture_position.entry_price + 20) /
        (fixture_position.amount + 20 / fixture_buy_signal.entry_price) = 3/2 := by
  have hget : getPosition fixture_ledger fixture_buy_signal.token_address =
      some fixture_position := by
    simp [getPosition, fixture_ledger, fixture_buy_signal]
  exact ⟨hget,
    (buy_update_weighted_average fixture_ledger fixture_buy_signal 20 fixture_position
      hget (by norm_num [fixture_position]) (by norm_num [fixture_position])
      (by norm_num) (by norm_num [fixture_buy_signal])).1,
    by norm_num [fixture_position, fixture_buy_signal],
    by norm_num [fixture_position, fixture_buy_signal]⟩

/-- Witness for C4: selling with position size 1 removes the position. -/
theorem sell_update_proportional_witness :
    getPosition fixture_ledger fixture_sell_signal.token_address = some fixture_position
    ∧ (0:ℚ) ≤ fixture_sell_signal.position_size
    ∧ fixture_sell_signal.position_size ≤ 1
    ∧ update_position fixture_sell_signal 0 "SELL" fixture_ledger =
        some (delPosition fixture_ledger fixture_sell_signal.token_address)
    ∧ getPosition (delPosition fixture_ledger fixture_sell_signal.token_address)
        fixture_sell_signal.token_address = none := by
  have hget : getPosition fixture_ledger fixture_sell_signal.token_address =
      some fixture_position := by
    simp [getPosition, fixture_ledger, fixture_sell_signal]
  have h := sell_update_proportional fixture_ledger fixture_sell_signal 0 fixture_position
    hget (by norm_num [fixture_sell_signal]) (by norm_num [fixture_sell_signal])
  exact ⟨hget, by norm_num [fixture_sell_signal], by norm_num [fixture_sell_signal],
    h.2.1 (by norm_num [fixture_sell_signal]), h.2.2⟩

/-- Witness for C8: the buy-then-sell sequence runs to the empty ledger and
preserves the invariant. -/
theorem ledger_updates_preserve_invariant_witness :
    positions_invariant fixture_ledger
    ∧ ops_well_formed fixture_ops
    ∧ run_ledger_ops fixture_ledger fixture_ops = some []
    ∧ positions_invariant [] := by
  have hinv : positions_invariant fixture_ledger := by
    norm_num [positions_invariant, fixture_ledger, fixture_position]
  have hwf : ops_well_formed fixture_ops := by
    norm_num [ops_well_formed, op_well_formed, fixture_ops, fixture_buy_signal,
      fixture_sell_signal]
  have hrun : run_ledger_ops fixture_ledger fixture_ops = some [] := by
    norm_num [run_ledger_ops, run_ledger_op, update_position, getPosition, setPosition,
      delPosition, fixture_ledger, fixture_ops, fixture_buy_signal, fixture_sell_signal,
      fixture_position]
    rfl
  exact ⟨hinv, hwf, hrun,
    ledger_updates_preserve_invariant fixture_ops fixture_ledger [] hinv hwf hrun⟩

/-- Witness for C9: a successful swap on a validated BUY signal changes the
positions, and the swap outcome indeed carried a transaction identifier. -/
theorem failed_execution_leaves_state_witness :
    (execute_trading_signal fixture_buy_signal 1000 fixture_state (some "tx")).2 ≠
        fixture_state
    ∧ (some "tx" : Option String).isSome = true := by
  have hne : (execute_trading_signal fixture_buy_signal 1000 fixture_state
      (some "tx")).2 ≠ fixture_state := by
    norm_num [execute_trading_signal, validate_trade_execution, current_exposure,
      update_position, getPosition, setPosition, risk_limits, fixture_buy_signal,
      fixture_state]
  exact ⟨hne, (failed_execution_leaves_state fixture_buy_signal 1000 fixture_state
    (some "tx")).2 hne⟩


end AdvancedTradingEngine
